import Mathlib

/-!
Shallow embedding of the D2S QGIS client (`d2s_qgis_client.py`).

HTTP input and output are modelled by an oracle script: a list of
`Except Unit Response` values consumed in order, one item per HTTP request
the code issues; an `Except.error` item stands for a transport-level
exception raised by the HTTP library, and an exhausted script is likewise
treated as a transport-level failure.  Every stateful operation returns,
besides its Python return value (`Except ClientError` standing in for a
raised `ValueError` / `requests` exception), the session after the call
(the Python code mutates `self.session` in place, so the post-state is
observable even when an exception is raised), the unconsumed remainder of
the script, and the list of requests issued, in order.

The hostname of the base URL (`urlparse(base_url).hostname or ""` in the
source) is passed in as an explicit `host` argument rather than re-deriving
it from the URL string; every theorem quantifies over it.
-/

/-- JSON values, the result of `response.json()` in the source. -/
inductive Json where
  | null
  | bool (b : Bool)
  | num (n : Int)
  | str (s : String)
  | arr (items : List Json)
  | obj (fields : List (String × Json))

/-- Python truthiness of a JSON value, as used by
`if ... and user_data["api_access_token"]:` and by
`if ... and self.acquisition_date:` in the source. -/
def pyTruthy : Json → Bool
  | Json.null => false
  | Json.bool b => b
  | Json.num n => n != 0
  | Json.str s => s != ""
  | Json.arr items => !items.isEmpty
  | Json.obj fields => !fields.isEmpty

/-- A cookie in a `requests` cookie jar.  `domain = none` models a cookie
that was set without an explicit domain attribute. -/
structure Cookie where
  name : String
  value : String
  domain : Option String
  path : String
deriving DecidableEq

/-- A `requests.Session`: its cookie jar plus the dynamically attached
`api_key` attribute that `Auth.login` may set. -/
structure Session where
  cookies : List Cookie
  apiKey : Option Json := none

/-- HTTP method of an issued request. -/
inductive HttpMethod where
  | get
  | post
deriving DecidableEq

/-- Query parameters (`params=` keyword): only `has_raster : bool` is ever
sent by this code, so parameter values are booleans. -/
abbrev Params := List (String × Bool)

/-- A request issued by the client: method, full URL, query parameters and
form payload (`data=` keyword). -/
structure Request where
  method : HttpMethod
  url : String
  params : Params
  form : List (String × String)
deriving DecidableEq

/-- A server response: status code, response cookies (name and value pairs,
as exposed by `response.cookies`) and parsed JSON body. -/
structure Response where
  status : Nat
  cookies : List (String × String)
  body : Json

/-- One oracle item: a response, or a transport-level exception. -/
abbrev ScriptItem := Except Unit Response

/-- The oracle script consumed by a sequence of HTTP requests. -/
abbrev Script := List ScriptItem

/-- The errors the client can raise.  The source raises `ValueError` with a
message in each case; the spec names them AuthError, ConfigError,
SessionExpiredError, HTTPError and NetworkError. -/
inductive ClientError where
  /-- AuthError: "Authentication failed. Check your email and password." -/
  | authInvalid
  /-- AuthError: "Login failed with status ..." (carries the status). -/
  | authFailedStatus (status : Nat)
  /-- AuthError: "Failed to fetch user information". -/
  | userLookupFailed
  /-- ConfigError: "Session missing access token. Must sign in first." -/
  | configMissingToken
  /-- SessionExpiredError: "Session expired. Please login again." -/
  | sessionExpired
  /-- HTTPError raised by `response.raise_for_status()`. -/
  | httpError (status : Nat)
  /-- A transport-level exception propagating out of an HTTP call. -/
  | netError
  /-- TypeError from spreading a non-mapping as `**kwargs`. -/
  | typeError
deriving DecidableEq

/-- The `requests` cookie jar `set` operation: drop any existing cookie with the same
name, domain and path, then add the new cookie. -/
def jarSet (jar : List Cookie) (c : Cookie) : List Cookie :=
  jar.filter (fun k => !(k.name == c.name && k.domain == c.domain && k.path == c.path)) ++ [c]

/-- The cookie-storing policy the source repeats at every token-storing
site (`Auth.login` and `APIClient._refresh_access_token`):
if the host is `localhost` or `127.0.0.1`, set the cookie with `path="/"`
and no domain; otherwise set it with `domain=host` and `path="/"`. -/
def setScopedCookie (host name value : String) (jar : List Cookie) : List Cookie :=
  if host = "localhost" ∨ host = "127.0.0.1" then
    jarSet jar { name := name, value := value, domain := none, path := "/" }
  else
    jarSet jar { name := name, value := value, domain := some host, path := "/" }

/-- Spec-side description of the domain attribute the scoping policy is
claimed to produce: no domain for loopback hosts, otherwise the hostname. -/
def scopeDomain (host : String) : Option String :=
  if host = "localhost" ∨ host = "127.0.0.1" then none else some host

/-- Whether the session's cookie jar holds a cookie with the given name
(`any(cookie.name == n for cookie in self.session.cookies)`). -/
def hasCookieNamed (s : Session) (n : String) : Bool :=
  s.cookies.any (fun c => c.name == n)

/-- The `api_key` attribute after the current-user fetch in `Auth.login`:
`if "api_access_token" in user_data and user_data["api_access_token"]:`
stores the value, otherwise the attribute is left as it was.  The
current-user body is taken to be a JSON object when the key is read. -/
def apiKeyAfterUserFetch (body : Json) (old : Option Json) : Option Json :=
  match body with
  | Json.obj fields =>
    match fields.lookup "api_access_token" with
    | some v => if pyTruthy v then some v else old
    | none => old
  | _ => old

/-- Model of `Auth.login(email, password)`.  POSTs the form-encoded credentials to
the token endpoint (with a bare `requests.post`, not the session); on a 200
response carrying an `access_token` cookie it stores the token cookies
under the scoping policy, then fetches the current user with the session;
only a 200 from that fetch returns the session (modelled `Except.ok ()`
plus the session component).  A 401 from the token endpoint raises the
invalid-credentials error, any other non-200 raises the error carrying the
status.  The current-user body is taken to be a JSON object when the
`api_access_token` key is read from it. -/
def login (baseUrl host email password : String) (s : Session) (script : Script) :
    Except ClientError Unit × Session × Script × List Request :=
  let credentials := [("username", email), ("password", password)]
  let url := baseUrl ++ "/api/v1/auth/access-token"
  let req : Request := ⟨HttpMethod.post, url, [], credentials⟩
  match script with
  | [] => (Except.error ClientError.netError, s, [], [req])
  | Except.error _ :: rest => (Except.error ClientError.netError, s, rest, [req])
  | Except.ok response :: rest =>
    if response.status = 200 ∧ (response.cookies.lookup "access_token").isSome then
      let tokenValue := (response.cookies.lookup "access_token").getD ""
      let s1 : Session := { s with cookies := setScopedCookie host "access_token" tokenValue s.cookies }
      let s2 : Session :=
        match response.cookies.lookup "refresh_token" with
        | some refreshValue =>
            { s1 with cookies := setScopedCookie host "refresh_token" refreshValue s1.cookies }
        | none => s1
      let userReq : Request := ⟨HttpMethod.get, baseUrl ++ "/api/v1/users/current", [], []⟩
      match rest with
      | [] => (Except.error ClientError.netError, s2, [], [req, userReq])
      | Except.error _ :: rest2 => (Except.error ClientError.netError, s2, rest2, [req, userReq])
      | Except.ok userResponse :: rest2 =>
        if userResponse.status = 200 then
          let s3 : Session := { s2 with apiKey := apiKeyAfterUserFetch userResponse.body s2.apiKey }
          (Except.ok (), s3, rest2, [req, userReq])
        else
          (Except.error ClientError.userLookupFailed, s2, rest2, [req, userReq])
    else if response.status = 401 then
      (Except.error ClientError.authInvalid, s, rest, [req])
    else
      (Except.error (ClientError.authFailedStatus response.status), s, rest, [req])

/-- Model of `APIClient.__init__`: raises the missing-token ConfigError when the
session has no `access_token` cookie.  The second component records the
HTTP requests issued during construction: the constructor performs none. -/
def apiClientInit (s : Session) : Except ClientError Unit × List Request :=
  if !(s.cookies.any (fun c => c.name == "access_token")) then
    (Except.error ClientError.configMissingToken, [])
  else
    (Except.ok (), [])

/-- Model of `Workspace.__init__`: stores its fields and constructs the `APIClient`
for the same session, which performs the access-token check. -/
def workspaceInit (s : Session) : Except ClientError Unit × List Request :=
  apiClientInit s

/-- Model of `APIClient._refresh_access_token`.  Returns `false` without issuing a
request when no `refresh_token` cookie is present; otherwise POSTs to the
refresh endpoint inside try/except: a 200 response stores any
`access_token` / `refresh_token` response cookies under the scoping policy
and yields `true`; a non-200 response, a transport exception, or an
exhausted script yields `false`. -/
def refreshAccessToken (baseUrl host : String) (s : Session) (script : Script) :
    Bool × Session × Script × List Request :=
  if !(s.cookies.any (fun c => c.name == "refresh_token")) then
    (false, s, script, [])
  else
    let url := baseUrl ++ "/api/v1/auth/refresh-token"
    let req : Request := ⟨HttpMethod.post, url, [], []⟩
    match script with
    | [] => (false, s, [], [req])
    | Except.error _ :: rest => (false, s, rest, [req])
    | Except.ok response :: rest =>
      if response.status = 200 then
        let jar1 :=
          match response.cookies.lookup "access_token" with
          | some v => setScopedCookie host "access_token" v s.cookies
          | none => s.cookies
        let jar2 :=
          match response.cookies.lookup "refresh_token" with
          | some v => setScopedCookie host "refresh_token" v jar1
          | none => jar1
        (true, { s with cookies := jar2 }, rest, [req])
      else
        (false, s, rest, [req])

/-- Model of `response.raise_for_status()` followed by `return response.json()`:
an HTTPError for 4xx and 5xx status codes, the parsed body otherwise. -/
def raiseForStatusJson (r : Response) : Except ClientError Json :=
  if 400 ≤ r.status ∧ r.status < 600 then
    Except.error (ClientError.httpError r.status)
  else
    Except.ok r.body

/-- Model of `APIClient.make_get_request(endpoint, **kwargs)`.  Issues the GET; on a
401 for any endpoint other than the refresh endpoint it attempts one token
refresh: on success the GET is reissued once with the same URL and
parameters, on failure all session cookies are cleared and the
session-expired error is raised.  The final response goes through
`raise_for_status` and its JSON body is returned. -/
def make_get_request (baseUrl host endpoint : String) (params : Params) (s : Session)
    (script : Script) : Except ClientError Json × Session × Script × List Request :=
  let url := baseUrl ++ endpoint
  let req : Request := ⟨HttpMethod.get, url, params, []⟩
  match script with
  | [] => (Except.error ClientError.netError, s, [], [req])
  | Except.error _ :: rest => (Except.error ClientError.netError, s, rest, [req])
  | Except.ok response :: rest =>
    if response.status = 401 ∧ endpoint ≠ "/api/v1/auth/refresh-token" then
      match refreshAccessToken baseUrl host s rest with
      | (true, s1, rest1, reqs1) =>
        match rest1 with
        | [] => (Except.error ClientError.netError, s1, [], req :: reqs1 ++ [req])
        | Except.error _ :: rest2 =>
          (Except.error ClientError.netError, s1, rest2, req :: reqs1 ++ [req])
        | Except.ok response2 :: rest2 =>
          (raiseForStatusJson response2, s1, rest2, req :: reqs1 ++ [req])
      | (false, s1, rest1, reqs1) =>
        (Except.error ClientError.sessionExpired, { s1 with cookies := [] }, rest1, req :: reqs1)
    else
      (raiseForStatusJson response, s, rest, [req])

/-- An attribute value stored in a Python object's `__dict__`: either the
shared `APIClient` reference (identified by a numeric object id) or a JSON
value spread from the server response. -/
inductive Attr where
  | client (id : Nat)
  | val (j : Json)

/-- A Python object's `__dict__`: an insertion-ordered association list. -/
abbrev PyDict := List (String × Attr)

/-- Python dictionary assignment `d[k] = v`: replace the value at an
existing key in place (keeping insertion order), otherwise append the new
binding at the end. -/
def dictSet : PyDict → String → Attr → PyDict
  | [], k, v => [(k, v)]
  | kv :: rest, k, v => if kv.1 = k then (k, v) :: rest else kv :: dictSet rest k v

/-- Python `dict.update` / `self.__dict__.update(kwargs)`: assign every
binding of `kws`, in order, into `d`. -/
def dictUpdate (d : PyDict) (kws : PyDict) : PyDict :=
  kws.foldl (fun acc kv => dictSet acc kv.1 kv.2) d

/-- Python attribute read: the value bound to `k`, if any. -/
def dictGet : PyDict → String → Option Attr
  | [], _ => none
  | kv :: rest, k => if kv.1 = k then some kv.2 else dictGet rest k

/-- The value the last binding of `k` in a key-value list carries (what a
Python dict built from those bindings would hold at `k`). -/
def lastVal : PyDict → String → Option Attr
  | [], _ => none
  | kv :: rest, k =>
    match lastVal rest k with
    | some v => some v
    | none => if kv.1 = k then some kv.2 else none

/-- Server JSON fields arriving as `**kwargs`. -/
abbrev Kwargs := List (String × Json)

/-- The `kwargs` dictionary as attribute bindings. -/
def kwargsAttrs (kwargs : Kwargs) : PyDict :=
  kwargs.map (fun kv => (kv.1, Attr.val kv.2))

/-- Python `str.split(sep)` for a one-character separator: the maximal
chunks between occurrences of the separator (always a nonempty list). -/
def pySplit (sep : Char) : List Char → List (List Char)
  | [] => [[]]
  | c :: cs =>
    if c = sep then
      [] :: pySplit sep cs
    else
      match pySplit sep cs with
      | [] => [[c]]
      | chunk :: more => (c :: chunk) :: more

/-- Model of the source line splitting `self.acquisition_date` on the letter T and keeping element 0: the part of the string
before its first `T`. -/
def stripTime (s : String) : String :=
  String.mk ((pySplit 'T' s.data).headD [])

/-- Model of the body of `Project.__init__(client, **kwargs)` once its
arguments have bound: assign the client reference, then spread all server
fields over the `__dict__`. -/
def projectInit (clientId : Nat) (kwargs : Kwargs) : PyDict :=
  dictUpdate [("client", Attr.client clientId)] (kwargsAttrs kwargs)

/-- Model of the body of `DataProduct.__init__(client, **kwargs)` once its
arguments have bound: same shape as `Project`. -/
def dataProductInit (clientId : Nat) (kwargs : Kwargs) : PyDict :=
  dictUpdate [("client", Attr.client clientId)] (kwargsAttrs kwargs)

/-- Model of the body of `Flight.__init__(client, **kwargs)` once its
arguments have bound: assign the client reference, spread the server
fields, then, when an `acquisition_date` attribute is present, truthy and
a string, replace it by the part before the first `T`. -/
def flightInit (clientId : Nat) (kwargs : Kwargs) : PyDict :=
  let d := dictUpdate [("client", Attr.client clientId)] (kwargsAttrs kwargs)
  match dictGet d "acquisition_date" with
  | some (Attr.val j) =>
    if pyTruthy j then
      match j with
      | Json.str v => dictSet d "acquisition_date" (Attr.val (Json.str (stripTime v)))
      | _ => d
    else d
  | _ => d

/-- Python argument binding at the constructor call sites
`Project(self.client, **project_data)`, `Flight(self.client, **flight_data)`
and `DataProduct(self.client, **product_data)`: the client is passed
positionally, so the constructor body runs only when no kwargs key
collides with one of the named parameters of
`def __init__(self, client, **kwargs)` — a key named `client` (or `self`)
raises a TypeError (got multiple values for the argument) before the body
is entered. -/
def bindsConstructorArgs (kwargs : Kwargs) : Bool :=
  !(kwargs.any (fun kv => kv.1 == "client" || kv.1 == "self"))

/-- Model of the call `Project(client, **kwargs)`: Python argument binding,
then the constructor body. -/
def projectNew (clientId : Nat) (kwargs : Kwargs) : Except ClientError PyDict :=
  if bindsConstructorArgs kwargs then Except.ok (projectInit clientId kwargs)
  else Except.error ClientError.typeError

/-- Model of the call `DataProduct(client, **kwargs)`: Python argument
binding, then the constructor body. -/
def dataProductNew (clientId : Nat) (kwargs : Kwargs) : Except ClientError PyDict :=
  if bindsConstructorArgs kwargs then Except.ok (dataProductInit clientId kwargs)
  else Except.error ClientError.typeError

/-- Model of the call `Flight(client, **kwargs)`: Python argument binding,
then the constructor body. -/
def flightNew (clientId : Nat) (kwargs : Kwargs) : Except ClientError PyDict :=
  if bindsConstructorArgs kwargs then Except.ok (flightInit clientId kwargs)
  else Except.error ClientError.typeError

/-- Interpret a list response body as constructor `kwargs` dictionaries:
each element must be a JSON object, otherwise spreading it as `**kwargs`
raises a TypeError (likewise for a non-list body, whose iteration yields
non-mapping values). -/
def bodyAsKwargsList : Json → Except ClientError (List Kwargs)
  | Json.arr items =>
    match items.mapM (fun j => match j with | Json.obj fields => some fields | _ => none) with
    | some fieldsList => Except.ok fieldsList
    | none => Except.error ClientError.typeError
  | _ => Except.error ClientError.typeError

/-- Model of `Workspace.get_projects(has_raster)`: GET the projects endpoint,
passing the `has_raster` parameter dictionary only when `has_raster` is
truthy, and build one `Project` per returned JSON object. -/
def get_projects (baseUrl host : String) (clientId : Nat) (s : Session) (has_raster : Bool)
    (script : Script) : Except ClientError (List PyDict) × Session × Script × List Request :=
  let endpoint := "/api/v1/projects"
  let params : Params := if has_raster then [("has_raster", has_raster)] else []
  match make_get_request baseUrl host endpoint params s script with
  | (Except.error e, s1, script1, reqs) => (Except.error e, s1, script1, reqs)
  | (Except.ok body, s1, script1, reqs) =>
    match bodyAsKwargsList body with
    | Except.error e => (Except.error e, s1, script1, reqs)
    | Except.ok kwargsList =>
      (Except.ok (kwargsList.map (fun kwargs => projectInit clientId kwargs)), s1, script1, reqs)

/-- Model of `Project.get_flights(has_raster)`: GET the per-project flights
endpoint (`projectId` is the f-string rendering of `self.id`), passing the
`has_raster` parameter dictionary only when `has_raster` is truthy, and
build one `Flight` per returned JSON object. -/
def get_flights (baseUrl host projectId : String) (clientId : Nat) (s : Session)
    (has_raster : Bool) (script : Script) :
    Except ClientError (List PyDict) × Session × Script × List Request :=
  let endpoint := "/api/v1/projects/" ++ projectId ++ "/flights"
  let params : Params := if has_raster then [("has_raster", has_raster)] else []
  match make_get_request baseUrl host endpoint params s script with
  | (Except.error e, s1, script1, reqs) => (Except.error e, s1, script1, reqs)
  | (Except.ok body, s1, script1, reqs) =>
    match bodyAsKwargsList body with
    | Except.error e => (Except.error e, s1, script1, reqs)
    | Except.ok kwargsList =>
      (Except.ok (kwargsList.map (fun kwargs => flightInit clientId kwargs)), s1, script1, reqs)

/-! Concrete fixtures used by witnesses and counterexamples. -/

/-- A session holding both an access token and a refresh token cookie. -/
def sampleSession : Session :=
  ⟨[⟨"access_token", "tok", none, "/"⟩, ⟨"refresh_token", "ref", none, "/"⟩], none⟩

/-- A session holding only an access token cookie (no refresh token). -/
def accessOnlySession : Session :=
  ⟨[⟨"access_token", "tok", none, "/"⟩], none⟩

/-- A script answering a GET with 401, the refresh POST with 200, and the
retried GET with 401 again. -/
def retry401Script : Script :=
  [Except.ok ⟨401, [], Json.null⟩, Except.ok ⟨200, [], Json.null⟩,
   Except.ok ⟨401, [], Json.str "payload"⟩]

/-! Helper lemmas about cookie jars. -/

theorem mem_jarSet_self (jar : List Cookie) (c : Cookie) : c ∈ jarSet jar c := by
  unfold jarSet
  exact List.mem_append_right _ (List.mem_singleton.mpr rfl)

theorem mem_jarSet_of_name_ne {jar : List Cookie} {c : Cookie} (d : Cookie)
    (h : c ∈ jar) (hne : c.name ≠ d.name) : c ∈ jarSet jar d := by
  unfold jarSet
  apply List.mem_append_left
  rw [List.mem_filter]
  exact ⟨h, by simp [hne]⟩

theorem mem_setScopedCookie_self (host name value : String) (jar : List Cookie) :
    Cookie.mk name value (scopeDomain host) "/" ∈ setScopedCookie host name value jar := by
  unfold setScopedCookie scopeDomain
  by_cases h : host = "localhost" ∨ host = "127.0.0.1"
  · rw [if_pos h, if_pos h]
    exact mem_jarSet_self _ _
  · rw [if_neg h, if_neg h]
    exact mem_jarSet_self _ _

theorem mem_setScopedCookie_of_name_ne {jar : List Cookie} {c : Cookie}
    (host name value : String) (h : c ∈ jar) (hne : c.name ≠ name) :
    c ∈ setScopedCookie host name value jar := by
  unfold setScopedCookie
  split
  · exact mem_jarSet_of_name_ne _ h hne
  · exact mem_jarSet_of_name_ne _ h hne

/-! Helper lemmas about Python dictionaries. -/

theorem dictGet_dictSet_self (d : PyDict) (k : String) (v : Attr) :
    dictGet (dictSet d k v) k = some v := by
  induction d with
  | nil => simp [dictSet, dictGet]
  | cons kv rest ih =>
    by_cases h : kv.1 = k
    · simp [dictSet, dictGet, h]
    · simp [dictSet, dictGet, h, ih]

theorem dictGet_dictSet_ne (d : PyDict) (k k2 : String) (v : Attr) (h : k2 ≠ k) :
    dictGet (dictSet d k v) k2 = dictGet d k2 := by
  induction d with
  | nil => simp [dictSet, dictGet, h.symm]
  | cons kv rest ih =>
    by_cases hk : kv.1 = k
    · simp [dictSet, dictGet, hk, h.symm]
    · by_cases hk2 : kv.1 = k2
      · simp [dictSet, dictGet, hk, hk2, h]
      · simp [dictSet, dictGet, hk, hk2, ih]

theorem dictGet_dictUpdate (d kws : PyDict) (k : String) :
    dictGet (dictUpdate d kws) k =
      match lastVal kws k with
      | some v => some v
      | none => dictGet d k := by
  induction kws generalizing d with
  | nil => simp [dictUpdate, lastVal]
  | cons kv rest ih =>
    have hstep : dictUpdate d (kv :: rest) = dictUpdate (dictSet d kv.1 kv.2) rest := rfl
    rw [hstep, ih]
    cases hrest : lastVal rest k with
    | some v => simp [lastVal, hrest]
    | none =>
      by_cases hk : kv.1 = k
      · simp [lastVal, hrest, hk, hk ▸ dictGet_dictSet_self d kv.1 kv.2]
      · simp [lastVal, hrest, hk, dictGet_dictSet_ne d kv.1 k kv.2 (fun hc => hk hc.symm)]

theorem lastVal_none_of_no_key (kws : PyDict) (k : String)
    (h : ∀ kv ∈ kws, ¬kv.1 = k) : lastVal kws k = none := by
  induction kws with
  | nil => rfl
  | cons kv rest ih =>
    have hrest := ih (fun x hx => h x (List.mem_cons_of_mem kv hx))
    simp [lastVal, hrest, h kv (List.mem_cons_self kv rest)]

/-! Helper lemmas about the requests an API call issues. -/

theorem refreshAccessToken_reqs (baseUrl host : String) (s : Session) (script : Script) :
    ∀ q ∈ (refreshAccessToken baseUrl host s script).2.2.2,
      q = ⟨HttpMethod.post, baseUrl ++ "/api/v1/auth/refresh-token", [], []⟩ := by
  unfold refreshAccessToken
  split
  · simp
  · cases script with
    | nil => simp
    | cons item rest =>
      cases item with
      | error e => simp
      | ok response =>
        by_cases hstatus : response.status = 200
        · simp [hstatus]
        · simp [hstatus]

theorem make_get_request_reqs (baseUrl host endpoint : String) (params : Params) (s : Session)
    (script : Script) :
    (make_get_request baseUrl host endpoint params s script).2.2.2.head? =
      some ⟨HttpMethod.get, baseUrl ++ endpoint, params, []⟩ ∧
    ∀ q ∈ (make_get_request baseUrl host endpoint params s script).2.2.2,
      q = ⟨HttpMethod.get, baseUrl ++ endpoint, params, []⟩ ∨
      q = ⟨HttpMethod.post, baseUrl ++ "/api/v1/auth/refresh-token", [], []⟩ := by
  cases script with
  | nil => simp [make_get_request]
  | cons item rest =>
    cases item with
    | error e => simp [make_get_request]
    | ok response =>
      by_cases hcond : response.status = 401 ∧ endpoint ≠ "/api/v1/auth/refresh-token"
      · have hmem := refreshAccessToken_reqs baseUrl host s rest
        rcases heq : refreshAccessToken baseUrl host s rest with ⟨b, s1, rest1, reqs1⟩
        rw [heq] at hmem
        cases b with
        | true =>
          cases rest1 with
          | nil =>
            refine ⟨by simp [make_get_request, heq, hcond.1, hcond.2], ?_⟩
            intro q hq
            simp [make_get_request, heq, hcond.1, hcond.2] at hq
            rcases hq with hq | hq | hq
            · exact Or.inl hq
            · exact Or.inr (hmem q hq)
            · exact Or.inl hq
          | cons item2 rest2 =>
            cases item2 with
            | error e2 =>
              refine ⟨by simp [make_get_request, heq, hcond.1, hcond.2], ?_⟩
              intro q hq
              simp [make_get_request, heq, hcond.1, hcond.2] at hq
              rcases hq with hq | hq | hq
              · exact Or.inl hq
              · exact Or.inr (hmem q hq)
              · exact Or.inl hq
            | ok response2 =>
              refine ⟨by simp [make_get_request, heq, hcond.1, hcond.2], ?_⟩
              intro q hq
              simp [make_get_request, heq, hcond.1, hcond.2] at hq
              rcases hq with hq | hq | hq
              · exact Or.inl hq
              · exact Or.inr (hmem q hq)
              · exact Or.inl hq
        | false =>
          refine ⟨by simp [make_get_request, heq, hcond.1, hcond.2], ?_⟩
          intro q hq
          simp [make_get_request, heq, hcond.1, hcond.2] at hq
          rcases hq with hq | hq
          · exact Or.inl hq
          · exact Or.inr (hmem q hq)
      · refine ⟨?_, ?_⟩
        · simp [make_get_request, hcond]
        · intro q hq
          simp [make_get_request, hcond] at hq
          exact Or.inl hq

/-! Helper lemmas about Python string splitting. -/

theorem pySplit_head_spec (sep : Char) (l : List Char) :
    sep ∉ (pySplit sep l).headD [] ∧
      ((pySplit sep l).headD [] = l ∨
        ∃ rest, l = (pySplit sep l).headD [] ++ sep :: rest) := by
  induction l with
  | nil => simp [pySplit]
  | cons c cs ih =>
    by_cases hc : c = sep
    · refine ⟨by simp [pySplit, hc], Or.inr ⟨cs, by simp [pySplit, hc]⟩⟩
    · have hhead : (pySplit sep (c :: cs)).headD [] = c :: (pySplit sep cs).headD [] := by
        simp only [pySplit, if_neg hc]
        cases hsplit : pySplit sep cs with
        | nil => simp
        | cons chunk more => simp
      rw [hhead]
      constructor
      · intro hmem
        rcases List.mem_cons.mp hmem with h | h
        · exact hc h.symm
        · exact ih.1 h
      · rcases ih.2 with h | ⟨rest, hrest⟩
        · exact Or.inl (by rw [h])
        · exact Or.inr ⟨rest, by rw [List.cons_append, ← hrest]⟩

/-! Claim theorems. -/

/-- C1 (amended): for a GET on a non-refresh endpoint whose first response
is 401, when the session holds a refresh token and the refresh POST answers
200 (so `refreshAccessToken` succeeds), exactly three requests are issued —
the original GET, one refresh POST, and exactly one retried GET with the
same URL and parameters — and the call's outcome is determined by the retry
response alone: its parsed JSON body when its status is not a 4xx/5xx
error, an HTTPError with the retry's status otherwise (so a 401 on the
retry is not refreshed again).  Moreover a 401 on the refresh endpoint
itself never triggers a refresh: the call issues only the one GET and
raises the HTTPError. -/
theorem make_get_request_retry_spec (baseUrl host endpoint : String) (params : Params)
    (s : Session) (r1 rr r2 : Response) (rest : Script)
    (h1 : r1.status = 401) (h2 : endpoint ≠ "/api/v1/auth/refresh-token")
    (h3 : s.cookies.any (fun c => c.name == "refresh_token") = true)
    (h4 : rr.status = 200) :
    (make_get_request baseUrl host endpoint params s
        (Except.ok r1 :: Except.ok rr :: Except.ok r2 :: rest)).2.2.2 =
      [⟨HttpMethod.get, baseUrl ++ endpoint, params, []⟩,
       ⟨HttpMethod.post, baseUrl ++ "/api/v1/auth/refresh-token", [], []⟩,
       ⟨HttpMethod.get, baseUrl ++ endpoint, params, []⟩] ∧
    (make_get_request baseUrl host endpoint params s
        (Except.ok r1 :: Except.ok rr :: Except.ok r2 :: rest)).2.2.1 = rest ∧
    (make_get_request baseUrl host endpoint params s
        (Except.ok r1 :: Except.ok rr :: Except.ok r2 :: rest)).1 =
      (if 400 ≤ r2.status ∧ r2.status < 600 then
        Except.error (ClientError.httpError r2.status)
      else Except.ok r2.body) ∧
    (∀ (t : Session) (q : Response) (qrest : Script), q.status = 401 →
      (make_get_request baseUrl host "/api/v1/auth/refresh-token" params t
          (Except.ok q :: qrest)).1 = Except.error (ClientError.httpError 401) ∧
      (make_get_request baseUrl host "/api/v1/auth/refresh-token" params t
          (Except.ok q :: qrest)).2.2.2 =
        [⟨HttpMethod.get, baseUrl ++ "/api/v1/auth/refresh-token", params, []⟩]) := by
  refine ⟨?_, ?_, ?_, ?_⟩
  · simp [make_get_request, refreshAccessToken, h1, h2, h3, h4]
  · simp [make_get_request, refreshAccessToken, h1, h2, h3, h4]
  · simp [make_get_request, refreshAccessToken, raiseForStatusJson, h1, h2, h3, h4]
  · intro t q qrest hq
    constructor
    · simp [make_get_request, raiseForStatusJson, hq]
    · simp [make_get_request, hq]

/-- C1 witness: a concrete run in which the first response is 401, the
refresh succeeds and the retry answers 200, instantiating the amended
theorem. -/
theorem make_get_request_retry_spec_witness :
    (make_get_request "http://x" "x" "/api/v1/projects" [] sampleSession
        [Except.ok ⟨401, [], Json.null⟩, Except.ok ⟨200, [], Json.null⟩,
         Except.ok ⟨200, [], Json.str "payload"⟩]).2.2.2 =
      [⟨HttpMethod.get, "http://x" ++ "/api/v1/projects", [], []⟩,
       ⟨HttpMethod.post, "http://x" ++ "/api/v1/auth/refresh-token", [], []⟩,
       ⟨HttpMethod.get, "http://x" ++ "/api/v1/projects", [], []⟩] ∧
    (make_get_request "http://x" "x" "/api/v1/projects" [] sampleSession
        [Except.ok ⟨401, [], Json.null⟩, Except.ok ⟨200, [], Json.null⟩,
         Except.ok ⟨200, [], Json.str "payload"⟩]).1 = Except.ok (Json.str "payload") := by
  have h := make_get_request_retry_spec "http://x" "x" "/api/v1/projects" [] sampleSession
      ⟨401, [], Json.null⟩ ⟨200, [], Json.null⟩ ⟨200, [], Json.str "payload"⟩ []
      rfl (by decide) (by decide) rfl
  refine ⟨h.1, ?_⟩
  rw [h.2.2.1]
  simp

/-- C1 counterexample: a run in which the first response is 401 and the
refresh succeeds, yet the retried GET answers 401, so the call raises an
HTTPError instead of returning the retry's parsed JSON body — the claim's
unconditional "the retry's parsed JSON body is returned" is false. -/
theorem make_get_request_unconditional_return_false :
    (refreshAccessToken "http://x" "x" sampleSession retry401Script.tail).1 = true ∧
    (make_get_request "http://x" "x" "/api/v1/projects" [] sampleSession retry401Script).1 =
      Except.error (ClientError.httpError 401) ∧
    ∀ j : Json,
      (make_get_request "http://x" "x" "/api/v1/projects" [] sampleSession retry401Script).1 ≠
        Except.ok j := by
  refine ⟨rfl, rfl, fun j h => ?_⟩
  rw [show (make_get_request "http://x" "x" "/api/v1/projects" [] sampleSession
      retry401Script).1 = Except.error (ClientError.httpError 401) from rfl] at h
  exact Except.noConfusion h

/-- C2: for a GET on a non-refresh endpoint answered with 401, if the
refresh attempt returns false (in particular when the session holds no
refresh_token cookie), all session cookies are cleared and the call raises
the SessionExpiredError. -/
theorem make_get_request_refresh_failure_spec (baseUrl host endpoint : String)
    (params : Params) (s : Session) (r1 : Response) (rest : Script)
    (h1 : r1.status = 401) (h2 : endpoint ≠ "/api/v1/auth/refresh-token")
    (h3 : (refreshAccessToken baseUrl host s rest).1 = false) :
    (make_get_request baseUrl host endpoint params s (Except.ok r1 :: rest)).1 =
      Except.error ClientError.sessionExpired ∧
    (make_get_request baseUrl host endpoint params s (Except.ok r1 :: rest)).2.1.cookies = [] := by
  rcases heq : refreshAccessToken baseUrl host s rest with ⟨b, s1, rest1, reqs1⟩
  rw [heq] at h3
  simp at h3
  subst h3
  constructor
  · simp [make_get_request, heq, h1, h2]
  · simp [make_get_request, heq, h1, h2]

/-- C2 witness: a session with only an access token, and a GET answered
with 401: the refresh returns false, the call raises SessionExpiredError
and the cookie jar is empty afterwards. -/
theorem make_get_request_refresh_failure_spec_witness :
    (make_get_request "http://x" "x" "/api/v1/projects" [] accessOnlySession
        [Except.ok ⟨401, [], Json.null⟩]).1 = Except.error ClientError.sessionExpired ∧
    (make_get_request "http://x" "x" "/api/v1/projects" [] accessOnlySession
        [Except.ok ⟨401, [], Json.null⟩]).2.1.cookies = [] :=
  make_get_request_refresh_failure_spec "http://x" "x" "/api/v1/projects" [] accessOnlySession
    ⟨401, [], Json.null⟩ [] rfl (by decide) rfl

/-- C3: constructing an APIClient — also through the Workspace constructor
— fails with the ConfigError exactly when the session's jar holds no cookie
named access_token, succeeds when one is present, and in either case issues
no HTTP request. -/
theorem client_construction_spec (s : Session) :
    ((apiClientInit s).1 = Except.error ClientError.configMissingToken ↔
      ∀ c ∈ s.cookies, c.name ≠ "access_token") ∧
    ((∃ c ∈ s.cookies, c.name = "access_token") → (apiClientInit s).1 = Except.ok ()) ∧
    (apiClientInit s).2 = [] ∧
    workspaceInit s = apiClientInit s := by
  have hiff : (s.cookies.any (fun c => c.name == "access_token") = false) ↔
      ∀ c ∈ s.cookies, c.name ≠ "access_token" := by
    rw [List.any_eq_false]
    simp
  refine ⟨?_, ?_, ?_, rfl⟩
  · constructor
    · intro herr
      rw [← hiff]
      cases hb : s.cookies.any (fun c => c.name == "access_token") with
      | false => rfl
      | true => simp [apiClientInit, hb] at herr
    · intro hall
      simp [apiClientInit, hiff.mpr hall]
  · rintro ⟨c, hc, hname⟩
    have hany : s.cookies.any (fun c => c.name == "access_token") = true :=
      List.any_eq_true.mpr ⟨c, hc, by simp [hname]⟩
    simp [apiClientInit, hany]
  · unfold apiClientInit
    split <;> rfl

/-- C3 witness: the empty session fails construction with the ConfigError
and issues no request; a session with an access token constructs fine. -/
theorem client_construction_spec_witness :
    (apiClientInit (⟨[], none⟩ : Session)).1 = Except.error ClientError.configMissingToken ∧
    (apiClientInit (⟨[], none⟩ : Session)).2 = [] ∧
    (apiClientInit accessOnlySession).1 = Except.ok () := by
  refine ⟨?_, ?_, ?_⟩
  · exact (client_construction_spec ⟨[], none⟩).1.mpr (by simp)
  · exact (client_construction_spec ⟨[], none⟩).2.2.1
  · exact (client_construction_spec accessOnlySession).2.1
      ⟨⟨"access_token", "tok", none, "/"⟩, by simp [accessOnlySession], rfl⟩

/-- After a 200 token response carrying an access_token cookie, the
session's jar is the original jar with the access token stored under the
scoping policy, then the refresh token when the response carries one —
whatever the rest of the login run does. -/
theorem login_cookies_after_token (baseUrl host email password : String) (s : Session)
    (r1 : Response) (rest : Script) (v : String)
    (h200 : r1.status = 200) (htok : r1.cookies.lookup "access_token" = some v) :
    (login baseUrl host email password s (Except.ok r1 :: rest)).2.1.cookies =
      match r1.cookies.lookup "refresh_token" with
      | some rv => setScopedCookie host "refresh_token" rv
          (setScopedCookie host "access_token" v s.cookies)
      | none => setScopedCookie host "access_token" v s.cookies := by
  cases hrt : r1.cookies.lookup "refresh_token" with
  | none =>
    cases rest with
    | nil => simp [login, h200, htok, hrt]
    | cons item rest2 =>
      cases item with
      | error e => simp [login, h200, htok, hrt]
      | ok u => by_cases hu : u.status = 200 <;> simp [login, h200, htok, hrt, hu]
  | some rv =>
    cases rest with
    | nil => simp [login, h200, htok, hrt]
    | cons item rest2 =>
      cases item with
      | error e => simp [login, h200, htok, hrt]
      | ok u => by_cases hu : u.status = 200 <;> simp [login, h200, htok, hrt, hu]

/-- After a 200 refresh response, the session's jar is the original jar
with any access_token response cookie stored under the scoping policy,
then any refresh_token response cookie likewise. -/
theorem refresh_cookies_after_200 (baseUrl host : String) (t : Session) (rr : Response)
    (rrest : Script) (ht : t.cookies.any (fun c => c.name == "refresh_token") = true)
    (hrr : rr.status = 200) :
    (refreshAccessToken baseUrl host t (Except.ok rr :: rrest)).2.1.cookies =
      match rr.cookies.lookup "refresh_token" with
      | some rv => setScopedCookie host "refresh_token" rv
          (match rr.cookies.lookup "access_token" with
           | some av => setScopedCookie host "access_token" av t.cookies
           | none => t.cookies)
      | none =>
          match rr.cookies.lookup "access_token" with
          | some av => setScopedCookie host "access_token" av t.cookies
          | none => t.cookies := by
  cases ha : rr.cookies.lookup "access_token" <;> cases hb : rr.cookies.lookup "refresh_token" <;>
    simp [refreshAccessToken, ht, hrr, ha, hb]

/-- C4: whenever token cookies are stored — at login on a 200 with an
access_token cookie, and at refresh on a 200 — each stored
access_token/refresh_token cookie has path "/" and carries no domain
attribute when the host is localhost or 127.0.0.1, and domain equal to the
hostname for every other host (`scopeDomain`). -/
theorem cookie_scoping_spec (baseUrl host email password : String) (s : Session)
    (r1 : Response) (rest : Script) (v : String)
    (h200 : r1.status = 200) (htok : r1.cookies.lookup "access_token" = some v) :
    Cookie.mk "access_token" v (scopeDomain host) "/" ∈
      (login baseUrl host email password s (Except.ok r1 :: rest)).2.1.cookies ∧
    (∀ rv, r1.cookies.lookup "refresh_token" = some rv →
      Cookie.mk "refresh_token" rv (scopeDomain host) "/" ∈
        (login baseUrl host email password s (Except.ok r1 :: rest)).2.1.cookies) ∧
    (∀ (t : Session) (rr : Response) (rrest : Script),
      t.cookies.any (fun c => c.name == "refresh_token") = true → rr.status = 200 →
      (∀ av, rr.cookies.lookup "access_token" = some av →
        Cookie.mk "access_token" av (scopeDomain host) "/" ∈
          (refreshAccessToken baseUrl host t (Except.ok rr :: rrest)).2.1.cookies) ∧
      (∀ rv, rr.cookies.lookup "refresh_token" = some rv →
        Cookie.mk "refresh_token" rv (scopeDomain host) "/" ∈
          (refreshAccessToken baseUrl host t (Except.ok rr :: rrest)).2.1.cookies)) := by
  have hlogin := login_cookies_after_token baseUrl host email password s r1 rest v h200 htok
  refine ⟨?_, ?_, ?_⟩
  · rw [hlogin]
    cases hrt : r1.cookies.lookup "refresh_token" with
    | none => exact mem_setScopedCookie_self host "access_token" v s.cookies
    | some rv =>
      exact mem_setScopedCookie_of_name_ne host "refresh_token" rv
        (mem_setScopedCookie_self host "access_token" v s.cookies) (by simp)
  · intro rv hrv
    rw [hlogin, hrv]
    exact mem_setScopedCookie_self host "refresh_token" rv _
  · intro t rr rrest ht hrr
    have hc := refresh_cookies_after_200 baseUrl host t rr rrest ht hrr
    constructor
    · intro av hav
      rw [hc, hav]
      cases hrb : rr.cookies.lookup "refresh_token" with
      | none => exact mem_setScopedCookie_self host "access_token" av t.cookies
      | some rv =>
        exact mem_setScopedCookie_of_name_ne host "refresh_token" rv
          (mem_setScopedCookie_self host "access_token" av t.cookies) (by simp)
    · intro rv hrv
      rw [hc, hrv]
      exact mem_setScopedCookie_self host "refresh_token" rv _

/-- C4 witness: a login against host "h" stores both cookies with domain
"h" and path "/"; a refresh against localhost stores the access token with
no domain attribute. -/
theorem cookie_scoping_spec_witness :
    Cookie.mk "access_token" "av" (scopeDomain "h") "/" ∈
      (login "http://h" "h" "e" "p" ⟨[], none⟩
        [Except.ok ⟨200, [("access_token", "av"), ("refresh_token", "rv")], Json.null⟩]).2.1.cookies ∧
    Cookie.mk "refresh_token" "rv" (scopeDomain "h") "/" ∈
      (login "http://h" "h" "e" "p" ⟨[], none⟩
        [Except.ok ⟨200, [("access_token", "av"), ("refresh_token", "rv")], Json.null⟩]).2.1.cookies ∧
    Cookie.mk "access_token" "av2" (scopeDomain "localhost") "/" ∈
      (refreshAccessToken "http://localhost" "localhost" sampleSession
        [Except.ok ⟨200, [("access_token", "av2")], Json.null⟩]).2.1.cookies := by
  have h := cookie_scoping_spec "http://h" "h" "e" "p" ⟨[], none⟩
      ⟨200, [("access_token", "av"), ("refresh_token", "rv")], Json.null⟩ [] "av" rfl rfl
  have h2 := cookie_scoping_spec "http://localhost" "localhost" "e" "p" ⟨[], none⟩
      ⟨200, [("access_token", "av"), ("refresh_token", "rv")], Json.null⟩ [] "av" rfl rfl
  exact ⟨h.1, h.2.1 "rv" rfl,
    (h2.2.2 sampleSession ⟨200, [("access_token", "av2")], Json.null⟩ [] (by decide) rfl).1
      "av2" rfl⟩

/-- C5: `refreshAccessToken` never raises — it is a total boolean-returning
operation.  With no refresh_token cookie it returns false without issuing
any request and leaves the session untouched; with one, a 200 refresh
response makes it store any access_token/refresh_token response cookies
under the login scoping policy and return true, while a non-200 response, a
transport-level exception, or an exhausted script makes it return false. -/
theorem refresh_access_token_spec (baseUrl host : String) (s : Session) (script : Script) :
    (s.cookies.any (fun c => c.name == "refresh_token") = false →
      refreshAccessToken baseUrl host s script = (false, s, script, [])) ∧
    (s.cookies.any (fun c => c.name == "refresh_token") = true →
      (script = [] → (refreshAccessToken baseUrl host s script).1 = false) ∧
      (∀ e rest, script = Except.error e :: rest →
        (refreshAccessToken baseUrl host s script).1 = false ∧
        (refreshAccessToken baseUrl host s script).2.1 = s) ∧
      (∀ r rest, script = Except.ok r :: rest → r.status ≠ 200 →
        (refreshAccessToken baseUrl host s script).1 = false ∧
        (refreshAccessToken baseUrl host s script).2.1 = s) ∧
      (∀ r rest, script = Except.ok r :: rest → r.status = 200 →
        (refreshAccessToken baseUrl host s script).1 = true ∧
        (∀ av, r.cookies.lookup "access_token" = some av →
          Cookie.mk "access_token" av (scopeDomain host) "/" ∈
            (refreshAccessToken baseUrl host s script).2.1.cookies) ∧
        (∀ rv, r.cookies.lookup "refresh_token" = some rv →
          Cookie.mk "refresh_token" rv (scopeDomain host) "/" ∈
            (refreshAccessToken baseUrl host s script).2.1.cookies))) := by
  constructor
  · intro h
    simp [refreshAccessToken, h]
  · intro h
    refine ⟨?_, ?_, ?_, ?_⟩
    · intro hs
      subst hs
      simp [refreshAccessToken, h]
    · intro e rest hs
      subst hs
      constructor <;> simp [refreshAccessToken, h]
    · intro r rest hs hr
      subst hs
      constructor <;> simp [refreshAccessToken, h, hr]
    · intro r rest hs hr
      subst hs
      have hc := refresh_cookies_after_200 baseUrl host s r rest h hr
      refine ⟨by simp [refreshAccessToken, h, hr], ?_, ?_⟩
      · intro av hav
        rw [hc, hav]
        cases hrb : r.cookies.lookup "refresh_token" with
        | none => exact mem_setScopedCookie_self host "access_token" av s.cookies
        | some rv =>
          exact mem_setScopedCookie_of_name_ne host "refresh_token" rv
            (mem_setScopedCookie_self host "access_token" av s.cookies) (by simp)
      · intro rv hrv
        rw [hc, hrv]
        exact mem_setScopedCookie_self host "refresh_token" rv _

/-- C5 witness: no refresh token means false and no request; with one, a
200 refresh response yields true and a 500 yields false. -/
theorem refresh_access_token_spec_witness :
    refreshAccessToken "http://x" "x" accessOnlySession [] =
      (false, accessOnlySession, [], []) ∧
    (refreshAccessToken "http://x" "x" sampleSession
      [Except.ok ⟨200, [("access_token", "new")], Json.null⟩]).1 = true ∧
    (refreshAccessToken "http://x" "x" sampleSession
      [Except.ok ⟨500, [], Json.null⟩]).1 = false := by
  refine ⟨?_, ?_, ?_⟩
  · exact (refresh_access_token_spec "http://x" "x" accessOnlySession []).1 (by decide)
  · exact ((refresh_access_token_spec "http://x" "x" sampleSession
      [Except.ok ⟨200, [("access_token", "new")], Json.null⟩]).2 (by decide)).2.2.2
      ⟨200, [("access_token", "new")], Json.null⟩ [] rfl rfl |>.1
  · exact ((refresh_access_token_spec "http://x" "x" sampleSession
      [Except.ok ⟨500, [], Json.null⟩]).2 (by decide)).2.2.1
      ⟨500, [], Json.null⟩ [] rfl (by decide) |>.1

/-- C6: the login outcome taxonomy — 401 from the token endpoint raises
the invalid-credentials AuthError; any other non-200 raises the AuthError
carrying the status; a 200 with an access_token cookie followed by a
non-200 current-user response raises the user-lookup AuthError; and the
session is returned (ok) only after a 200 token response with an
access_token cookie and a 200 current-user response. -/
theorem login_outcome_spec (baseUrl host email password : String) (s : Session)
    (r1 : Response) (rest : Script) :
    (r1.status = 401 →
      (login baseUrl host email password s (Except.ok r1 :: rest)).1 =
        Except.error ClientError.authInvalid) ∧
    (r1.status ≠ 200 → r1.status ≠ 401 →
      (login baseUrl host email password s (Except.ok r1 :: rest)).1 =
        Except.error (ClientError.authFailedStatus r1.status)) ∧
    (∀ v u rest2, r1.status = 200 → r1.cookies.lookup "access_token" = some v →
      rest = Except.ok u :: rest2 → u.status ≠ 200 →
      (login baseUrl host email password s (Except.ok r1 :: rest)).1 =
        Except.error ClientError.userLookupFailed) ∧
    ((login baseUrl host email password s (Except.ok r1 :: rest)).1 = Except.ok () →
      r1.status = 200 ∧ (r1.cookies.lookup "access_token").isSome = true ∧
      ∃ u rest2, rest = Except.ok u :: rest2 ∧ u.status = 200) := by
  refine ⟨?_, ?_, ?_, ?_⟩
  · intro h
    simp [login, h]
  · intro h200 h401
    simp [login, h200, h401]
  · intro v u rest2 h200 htok hrest hu
    subst hrest
    simp [login, h200, htok, hu]
  · intro hok
    by_cases h200 : r1.status = 200
    · by_cases htok : (r1.cookies.lookup "access_token").isSome
      · cases rest with
        | nil => simp [login, h200, htok] at hok
        | cons item rest2 =>
          cases item with
          | error e => simp [login, h200, htok] at hok
          | ok u =>
            by_cases hu : u.status = 200
            · exact ⟨h200, htok, u, rest2, rfl, hu⟩
            · simp [login, h200, htok, hu] at hok
      · by_cases h401 : r1.status = 401
        · simp [login, htok, h401] at hok
        · simp [login, htok, h200, h401] at hok
    · by_cases h401 : r1.status = 401
      · simp [login, h200, h401] at hok
      · simp [login, h200, h401] at hok

/-- C6 witness: a 401 token response raises the invalid-credentials error,
a 500 raises the status-carrying error, and a 200-with-token followed by a
403 current-user response raises the user-lookup error. -/
theorem login_outcome_spec_witness :
    (login "http://h" "h" "e" "p" ⟨[], none⟩ [Except.ok ⟨401, [], Json.null⟩]).1 =
      Except.error ClientError.authInvalid ∧
    (login "http://h" "h" "e" "p" ⟨[], none⟩ [Except.ok ⟨500, [], Json.null⟩]).1 =
      Except.error (ClientError.authFailedStatus 500) ∧
    (login "http://h" "h" "e" "p" ⟨[], none⟩
        [Except.ok ⟨200, [("access_token", "av")], Json.null⟩,
         Except.ok ⟨403, [], Json.null⟩]).1 = Except.error ClientError.userLookupFailed := by
  refine ⟨?_, ?_, ?_⟩
  · exact (login_outcome_spec "http://h" "h" "e" "p" ⟨[], none⟩
      ⟨401, [], Json.null⟩ [Except.ok ⟨401, [], Json.null⟩].tail).1 rfl
  · exact (login_outcome_spec "http://h" "h" "e" "p" ⟨[], none⟩
      ⟨500, [], Json.null⟩ []).2.1 (by decide) (by decide)
  · exact (login_outcome_spec "http://h" "h" "e" "p" ⟨[], none⟩
      ⟨200, [("access_token", "av")], Json.null⟩
      [Except.ok ⟨403, [], Json.null⟩]).2.2.1 "av" ⟨403, [], Json.null⟩ [] rfl rfl rfl
      (by decide)

/-- C7: a Flight constructed from the sample timestamped date stores
exactly the date part; an already-bare date is unchanged; and in general,
whenever the spread kwargs leave a string acquisition_date on the object,
the stored value after construction is a prefix of it that contains no
letter T — everything from the first T onward has been removed. -/
theorem flight_acquisition_date_spec :
    dictGet (flightInit 0 [("acquisition_date", Json.str "2024-06-10T12:34:56")])
        "acquisition_date" = some (Attr.val (Json.str "2024-06-10")) ∧
    dictGet (flightInit 0 [("acquisition_date", Json.str "2024-06-10")])
        "acquisition_date" = some (Attr.val (Json.str "2024-06-10")) ∧
    ∀ (clientId : Nat) (kwargs : Kwargs) (s : String),
      dictGet (dictUpdate [("client", Attr.client clientId)] (kwargsAttrs kwargs))
          "acquisition_date" = some (Attr.val (Json.str s)) →
      ∃ t : String,
        dictGet (flightInit clientId kwargs) "acquisition_date" =
          some (Attr.val (Json.str t)) ∧
        'T' ∉ t.data ∧
        (t.data = s.data ∨ ∃ rest, s.data = t.data ++ 'T' :: rest) := by
  refine ⟨rfl, rfl, ?_⟩
  intro clientId kwargs s h
  by_cases hs : s = ""
  · subst hs
    refine ⟨"", ?_, by simp, Or.inl rfl⟩
    simp only [flightInit, h, pyTruthy]
    simpa using h
  · have htr : pyTruthy (Json.str s) = true := by
      simp [pyTruthy, hs]
    refine ⟨stripTime s, ?_, ?_, ?_⟩
    · simp only [flightInit, h, htr, if_true]
      exact dictGet_dictSet_self _ _ _
    · exact (pySplit_head_spec 'T' s.data).1
    · exact (pySplit_head_spec 'T' s.data).2

/-- C7 witness: instantiating the general clause at a concrete timestamped
kwargs dictionary. -/
theorem flight_acquisition_date_spec_witness :
    ∃ t : String,
      dictGet (flightInit 3 [("acquisition_date", Json.str "2025-01-02T03:04:05")])
          "acquisition_date" = some (Attr.val (Json.str t)) ∧
      'T' ∉ t.data ∧
      (t.data = "2025-01-02T03:04:05".data ∨
        ∃ rest, "2025-01-02T03:04:05".data = t.data ++ 'T' :: rest) :=
  flight_acquisition_date_spec.2.2 3 [("acquisition_date", Json.str "2025-01-02T03:04:05")]
    "2025-01-02T03:04:05" rfl

/-- Flight construction never disturbs the `client` attribute: the date
normalization rewrites only `acquisition_date`. -/
theorem flightInit_client_eq (clientId : Nat) (kwargs : Kwargs) :
    dictGet (flightInit clientId kwargs) "client" =
      dictGet (dictUpdate [("client", Attr.client clientId)] (kwargsAttrs kwargs)) "client" := by
  cases hd : dictGet (dictUpdate [("client", Attr.client clientId)] (kwargsAttrs kwargs))
      "acquisition_date" with
  | none => simp [flightInit, hd]
  | some a =>
    cases a with
    | client c => simp [flightInit, hd]
    | val j =>
      by_cases hj : pyTruthy j
      · cases j with
        | str v =>
          simp only [flightInit, hd, hj, if_true]
          exact dictGet_dictSet_ne _ _ _ _ (by decide)
        | null => simp [flightInit, hd, hj]
        | bool b => simp [flightInit, hd, hj]
        | num n => simp [flightInit, hd, hj]
        | arr items => simp [flightInit, hd, hj]
        | obj fields => simp [flightInit, hd, hj]
      · simp [flightInit, hd, hj]

/-- C10 (amended): in every child-resource constructor (Project, Flight,
DataProduct), the server fields are spread after the client reference is
assigned, so whenever the server object's keys collide with none of the
constructor's named parameters, the constructed object's `client`
attribute is the shared APIClient reference passed in; but a server field
named `client` does not silently replace that reference — since the client
is passed positionally at every call site, such a construction raises a
TypeError before the constructor body runs, and no resource is built. -/
theorem resource_client_attribute_spec (clientId : Nat) (kwargs : Kwargs) :
    (bindsConstructorArgs kwargs = true →
      projectNew clientId kwargs = Except.ok (projectInit clientId kwargs) ∧
      dataProductNew clientId kwargs = Except.ok (dataProductInit clientId kwargs) ∧
      flightNew clientId kwargs = Except.ok (flightInit clientId kwargs) ∧
      dictGet (projectInit clientId kwargs) "client" = some (Attr.client clientId) ∧
      dictGet (dataProductInit clientId kwargs) "client" = some (Attr.client clientId) ∧
      dictGet (flightInit clientId kwargs) "client" = some (Attr.client clientId)) ∧
    ((∃ j, ("client", j) ∈ kwargs) →
      projectNew clientId kwargs = Except.error ClientError.typeError ∧
      dataProductNew clientId kwargs = Except.error ClientError.typeError ∧
      flightNew clientId kwargs = Except.error ClientError.typeError) := by
  constructor
  · intro hb
    have hkeys : ∀ kv ∈ kwargs, ¬((kv.1 == "client" || kv.1 == "self") = true) := by
      rw [← List.any_eq_false]
      simpa [bindsConstructorArgs] using hb
    have hnone : lastVal (kwargsAttrs kwargs) "client" = none := by
      apply lastVal_none_of_no_key
      intro kv hkv
      rcases List.mem_map.mp hkv with ⟨kv0, hkv0, hmap⟩
      have hne := hkeys kv0 hkv0
      simp at hne
      rw [← hmap]
      exact hne.1
    have hbase := dictGet_dictUpdate [("client", Attr.client clientId)]
      (kwargsAttrs kwargs) "client"
    rw [hnone] at hbase
    refine ⟨by simp [projectNew, hb], by simp [dataProductNew, hb],
      by simp [flightNew, hb], ?_, ?_, ?_⟩
    · rw [projectInit, hbase]
      rfl
    · rw [dataProductInit, hbase]
      rfl
    · rw [flightInit_client_eq, hbase]
      rfl
  · rintro ⟨j, hj⟩
    have hany : (kwargs.any (fun kv => kv.1 == "client" || kv.1 == "self")) = true :=
      List.any_eq_true.mpr ⟨("client", j), hj, by simp⟩
    have hb : bindsConstructorArgs kwargs = false := by
      simp [bindsConstructorArgs, hany]
    exact ⟨by simp [projectNew, hb], by simp [dataProductNew, hb], by simp [flightNew, hb]⟩

/-- C10 witness: with no colliding key in the kwargs, construction
succeeds and the attribute is the shared client; with a server field named
`client`, construction fails with the TypeError. -/
theorem resource_client_attribute_spec_witness :
    projectNew 9 [("id", Json.num 1)] = Except.ok (projectInit 9 [("id", Json.num 1)]) ∧
    dictGet (projectInit 9 [("id", Json.num 1)]) "client" = some (Attr.client 9) ∧
    dictGet (flightInit 9 [("id", Json.num 1)]) "client" = some (Attr.client 9) ∧
    projectNew 9 [("client", Json.str "evil")] = Except.error ClientError.typeError := by
  have h1 := (resource_client_attribute_spec 9 [("id", Json.num 1)]).1 (by decide)
  have h2 := (resource_client_attribute_spec 9 [("client", Json.str "evil")]).2
      ⟨Json.str "evil", List.mem_cons_self _ _⟩
  exact ⟨h1.1, h1.2.2.2.1, h1.2.2.2.2.2, h2.1⟩

/-- C10 counterexample: constructing a Project, Flight or DataProduct from
a server object carrying a field named `client` does not silently replace
the shared client reference — the keyword collides with the positionally
passed client argument and the call raises a TypeError before the
constructor body runs, so no resource object is constructed at all. -/
theorem resource_client_kwarg_type_error :
    projectNew 9 [("client", Json.str "evil")] = Except.error ClientError.typeError ∧
    flightNew 9 [("client", Json.str "evil")] = Except.error ClientError.typeError ∧
    dataProductNew 9 [("client", Json.str "evil")] = Except.error ClientError.typeError :=
  ⟨rfl, rfl, rfl⟩

/-- The operation `get_projects` issues exactly the requests of the underlying
`make_get_request` on the projects endpoint with its computed params. -/
theorem get_projects_reqs (baseUrl host : String) (clientId : Nat) (s : Session)
    (has_raster : Bool) (script : Script) :
    (get_projects baseUrl host clientId s has_raster script).2.2.2 =
      (make_get_request baseUrl host "/api/v1/projects"
        (if has_raster then [("has_raster", has_raster)] else []) s script).2.2.2 := by
  simp only [get_projects]
  rcases heq : make_get_request baseUrl host "/api/v1/projects"
      (if has_raster then [("has_raster", has_raster)] else []) s script with ⟨res, s1, sc1, reqs⟩
  cases res with
  | error e => rfl
  | ok body =>
    cases hb : bodyAsKwargsList body with
    | error e => simp [hb]
    | ok kl => simp [hb]

/-- The operation `get_flights` issues exactly the requests of the underlying
`make_get_request` on the per-project flights endpoint with its computed
params. -/
theorem get_flights_reqs (baseUrl host projectId : String) (clientId : Nat) (s : Session)
    (has_raster : Bool) (script : Script) :
    (get_flights baseUrl host projectId clientId s has_raster script).2.2.2 =
      (make_get_request baseUrl host ("/api/v1/projects/" ++ projectId ++ "/flights")
        (if has_raster then [("has_raster", has_raster)] else []) s script).2.2.2 := by
  simp only [get_flights]
  rcases heq : make_get_request baseUrl host ("/api/v1/projects/" ++ projectId ++ "/flights")
      (if has_raster then [("has_raster", has_raster)] else []) s script with ⟨res, s1, sc1, reqs⟩
  cases res with
  | error e => rfl
  | ok body =>
    cases hb : bodyAsKwargsList body with
    | error e => simp [hb]
    | ok kl => simp [hb]

/-- C8: `get_projects` and `get_flights` send the has_raster query
parameter exactly when the caller requests filtering: with has_raster=true
every GET they issue carries `has_raster=true` (and the first request is
that GET); with has_raster=false (or by default) every request they issue
carries no parameters at all — no `has_raster=false` is ever sent. -/
theorem has_raster_param_spec (baseUrl host projectId : String) (clientId : Nat) (s : Session)
    (script scriptF : Script) :
    ((get_projects baseUrl host clientId s true script).2.2.2.head? =
      some ⟨HttpMethod.get, baseUrl ++ "/api/v1/projects", [("has_raster", true)], []⟩) ∧
    (∀ q ∈ (get_projects baseUrl host clientId s true script).2.2.2,
      q.method = HttpMethod.get → q.params = [("has_raster", true)]) ∧
    ((get_projects baseUrl host clientId s false script).2.2.2.head? =
      some ⟨HttpMethod.get, baseUrl ++ "/api/v1/projects", [], []⟩) ∧
    (∀ q ∈ (get_projects baseUrl host clientId s false script).2.2.2, q.params = []) ∧
    ((get_flights baseUrl host projectId clientId s true scriptF).2.2.2.head? =
      some ⟨HttpMethod.get, baseUrl ++ ("/api/v1/projects/" ++ projectId ++ "/flights"),
        [("has_raster", true)], []⟩) ∧
    (∀ q ∈ (get_flights baseUrl host projectId clientId s true scriptF).2.2.2,
      q.method = HttpMethod.get → q.params = [("has_raster", true)]) ∧
    ((get_flights baseUrl host projectId clientId s false scriptF).2.2.2.head? =
      some ⟨HttpMethod.get, baseUrl ++ ("/api/v1/projects/" ++ projectId ++ "/flights"),
        [], []⟩) ∧
    (∀ q ∈ (get_flights baseUrl host projectId clientId s false scriptF).2.2.2,
      q.params = []) := by
  have hp1 := make_get_request_reqs baseUrl host "/api/v1/projects" [("has_raster", true)] s script
  have hp0 := make_get_request_reqs baseUrl host "/api/v1/projects" [] s script
  have hf1 := make_get_request_reqs baseUrl host ("/api/v1/projects/" ++ projectId ++ "/flights")
      [("has_raster", true)] s scriptF
  have hf0 := make_get_request_reqs baseUrl host ("/api/v1/projects/" ++ projectId ++ "/flights")
      [] s scriptF
  refine ⟨?_, ?_, ?_, ?_, ?_, ?_, ?_, ?_⟩
  · rw [get_projects_reqs]
    exact hp1.1
  · intro q hq hmethod
    rw [get_projects_reqs] at hq
    rcases hp1.2 q hq with h | h
    · rw [h]
    · rw [h] at hmethod
      simp at hmethod
  · rw [get_projects_reqs]
    exact hp0.1
  · intro q hq
    rw [get_projects_reqs] at hq
    rcases hp0.2 q hq with h | h <;> rw [h]
  · rw [get_flights_reqs]
    exact hf1.1
  · intro q hq hmethod
    rw [get_flights_reqs] at hq
    rcases hf1.2 q hq with h | h
    · rw [h]
    · rw [h] at hmethod
      simp at hmethod
  · rw [get_flights_reqs]
    exact hf0.1
  · intro q hq
    rw [get_flights_reqs] at hq
    rcases hf0.2 q hq with h | h <;> rw [h]

/-- C8 witness: on a concrete filtered listing the one issued GET carries
`has_raster=true`; the unfiltered listing's GET carries no parameters. -/
theorem has_raster_param_spec_witness :
    Request.params ⟨HttpMethod.get, "http://x" ++ "/api/v1/projects",
        [("has_raster", true)], []⟩ = [("has_raster", true)] ∧
    (get_projects "http://x" "x" 0 accessOnlySession true
        [Except.ok ⟨200, [], Json.arr []⟩]).2.2.2.head? =
      some ⟨HttpMethod.get, "http://x" ++ "/api/v1/projects", [("has_raster", true)], []⟩ ∧
    (get_projects "http://x" "x" 0 accessOnlySession false
        [Except.ok ⟨200, [], Json.arr []⟩]).2.2.2.head? =
      some ⟨HttpMethod.get, "http://x" ++ "/api/v1/projects", [], []⟩ := by
  have h := has_raster_param_spec "http://x" "x" "5" 0 accessOnlySession
      [Except.ok ⟨200, [], Json.arr []⟩] [Except.ok ⟨200, [], Json.arr []⟩]
  exact ⟨h.2.1 ⟨HttpMethod.get, "http://x" ++ "/api/v1/projects", [("has_raster", true)], []⟩
      (by decide) rfl, h.1, h.2.2.1⟩

/-- C9: login mutates the session's cookie jar atomically with respect to
token-endpoint failures — any non-200 from the token endpoint leaves the
jar untouched — but not with respect to the user-lookup step: when the
token response is a 200 carrying an access_token cookie and the
current-user fetch answers non-200, the call raises the user-lookup error
while the token cookies are already stored in the session and remain so. -/
theorem login_atomicity_spec (baseUrl host email password : String) (s : Session)
    (r1 : Response) (rest : Script) :
    (r1.status ≠ 200 →
      (login baseUrl host email password s (Except.ok r1 :: rest)).2.1 = s) ∧
    (∀ v u rest2, r1.status = 200 → r1.cookies.lookup "access_token" = some v →
      rest = Except.ok u :: rest2 → u.status ≠ 200 →
      (login baseUrl host email password s (Except.ok r1 :: rest)).1 =
        Except.error ClientError.userLookupFailed ∧
      Cookie.mk "access_token" v (scopeDomain host) "/" ∈
        (login baseUrl host email password s (Except.ok r1 :: rest)).2.1.cookies ∧
      (∀ rv, r1.cookies.lookup "refresh_token" = some rv →
        Cookie.mk "refresh_token" rv (scopeDomain host) "/" ∈
          (login baseUrl host email password s (Except.ok r1 :: rest)).2.1.cookies)) := by
  constructor
  · intro h200
    by_cases h401 : r1.status = 401
    · simp [login, h200, h401]
    · simp [login, h200, h401]
  · intro v u rest2 h200 htok hrest hu
    have hlogin := login_cookies_after_token baseUrl host email password s r1 rest v h200 htok
    refine ⟨?_, ?_, ?_⟩
    · subst hrest
      simp [login, h200, htok, hu]
    · rw [hlogin]
      cases hrt : r1.cookies.lookup "refresh_token" with
      | none => exact mem_setScopedCookie_self host "access_token" v s.cookies
      | some rv =>
        exact mem_setScopedCookie_of_name_ne host "refresh_token" rv
          (mem_setScopedCookie_self host "access_token" v s.cookies) (by simp)
    · intro rv hrv
      rw [hlogin, hrv]
      exact mem_setScopedCookie_self host "refresh_token" rv _

/-- C9 witness: a 401 token response leaves the concrete session exactly as
it was; a 200-with-token followed by a 500 user lookup raises the
user-lookup error with the access token cookie stored and kept. -/
theorem login_atomicity_spec_witness :
    (login "http://h" "h" "e" "p" sampleSession [Except.ok ⟨401, [], Json.null⟩]).2.1 =
      sampleSession ∧
    (login "http://h" "h" "e" "p" (⟨[], none⟩ : Session)
        [Except.ok ⟨200, [("access_token", "av")], Json.null⟩,
         Except.ok ⟨500, [], Json.null⟩]).1 = Except.error ClientError.userLookupFailed ∧
    Cookie.mk "access_token" "av" (scopeDomain "h") "/" ∈
      (login "http://h" "h" "e" "p" (⟨[], none⟩ : Session)
        [Except.ok ⟨200, [("access_token", "av")], Json.null⟩,
         Except.ok ⟨500, [], Json.null⟩]).2.1.cookies := by
  have h1 := (login_atomicity_spec "http://h" "h" "e" "p" sampleSession
      ⟨401, [], Json.null⟩ []).1 (by decide)
  have h2 := (login_atomicity_spec "http://h" "h" "e" "p" ⟨[], none⟩
      ⟨200, [("access_token", "av")], Json.null⟩ [Except.ok ⟨500, [], Json.null⟩]).2
      "av" ⟨500, [], Json.null⟩ [] rfl rfl rfl (by decide)
  exact ⟨h1, h2.1, h2.2.1⟩
